import Mathlib

/-!
Shallow embedding of the GPU-Nebula scheduler/orchestrator core
(`backend/create_db.py`, `backend/scheduler.py`, `backend/main.py`).

The persistent store (SQLite via SQLAlchemy) is modelled as an explicit
`DBState` record; every handler becomes a pure function from the state
(plus oracles for external I/O: subprocess spawn results, remote agent
HTTP responses, commit success) to a new state and a response value.
Timestamps are abstract `Nat` clock values.  Python float arithmetic in
the GPU priority score is modelled exactly over `ℚ` (the score only
adds, multiplies and divides small integers, so no rounding occurs for
the inputs of interest).  Python truthiness (`x or d`, `if x and y:`)
on nullable integers is modelled explicitly: both `None` and `0` are
falsy.
-/

/-- Python truthiness of a nullable integer column: `None` and `0` are falsy. -/
def pyTruthy : Option Int → Bool
  | none => false
  | some v => v != 0

/-- Python `x or d` on a nullable integer: yields `d` when `x` is `None` or `0`. -/
def pyOrInt (x : Option Int) (d : Int) : Int :=
  match x with
  | none => d
  | some v => if v = 0 then d else v

/-- Python `str(x)` of a nullable integer (used only inside history detail text). -/
def pyStrOptInt : Option Int → String
  | none => "None"
  | some v => toString v

/-- Python substring test `small in big`. -/
def strContains (big small : String) : Bool :=
  decide (small.toList <:+: big.toList)

/-- Row of the `agents` table (`create_db.py`). -/
structure Agent where
  id : Nat
  hostname : String
  ip_address : String
  os : String
  last_seen : Nat
deriving DecidableEq, Repr

/-- Row of the `gpus` table (`create_db.py`).  Every insertion path in the
source (`agent_report_in`, `detect_self_gpu`) sets `agent_id`, so it is
modelled as a plain `Nat`; the metric columns are nullable in the schema and
kept as `Option Int`. -/
structure GPU where
  id : String
  agent_id : Nat
  name : String
  model : String
  status : String
  temperature : Option Int
  utilization : Option Int
  memory_total : Option Int
  memory_used : Option Int
  vram : Int
  is_available : Bool
  pci_bus_id : String
deriving DecidableEq, Repr

/-- Row of the `jobs` table (`create_db.py`). -/
structure Job where
  id : Nat
  workload_type : String
  command : String
  status : String
  assigned_gpu_id : Option String
  agent_id : Option Nat
  pid : Option Int
  created_at : Nat
  started_at : Option Nat
  finished_at : Option Nat
deriving DecidableEq, Repr

/-- Row of the `history` table (`create_db.py`); the auto-increment `id`
column is not modelled (no claim depends on it). -/
structure History where
  job_id : Nat
  action : String
  details : String
  timestamp : Nat
deriving DecidableEq, Repr

/-- The whole persistent store. -/
structure DBState where
  agents : List Agent
  gpus : List GPU
  jobs : List Job
  history : List History
  nextJobId : Nat
  nextAgentId : Nat
deriving DecidableEq, Repr

/-- `JobScheduler._calculate_gpu_priority_score` (`scheduler.py` 125-164).
`gpu.temperature or 50` and the `if gpu.memory_total and gpu.memory_used:`
guard use Python truthiness, so a stored `0` falls back to the default just
like `None` does. -/
def calculate_gpu_priority_score (gpu : GPU) (active_jobs_count : Nat) : ℚ :=
  let temp : Int := pyOrInt gpu.temperature 50
  let temp_score : Int := if temp > 80 then temp * 2 else temp
  let util_score : Int := pyOrInt gpu.utilization 0
  let jobs_score : Int := (active_jobs_count : Int) * 20
  let memory_usage_pct : ℚ :=
    if pyTruthy gpu.memory_total && pyTruthy gpu.memory_used then
      ((gpu.memory_used.getD 0 : ℚ) / (gpu.memory_total.getD 0 : ℚ)) * 100
    else 50
  (temp_score : ℚ) * 2 + (util_score : ℚ) * 3 + (jobs_score : ℚ) * 5
    + memory_usage_pct * (3 / 2)

/-- The `active_jobs_per_gpu` map of `_find_optimal_gpu` (`scheduler.py`
98-105): jobs with status `running` or `pending` are counted per assigned
GPU id; a job whose `assigned_gpu_id` is `None` (or the falsy empty string)
is not counted. -/
def countActiveJobsOn (jobs : List Job) (gpuId : String) : Nat :=
  (jobs.filter (fun j =>
    (j.status == "running" || j.status == "pending") &&
    match j.assigned_gpu_id with
    | some s => s != "" && s == gpuId
    | none => false)).length

/-- The `ListAvailableGPUs` query of `_find_optimal_gpu` (`scheduler.py`
90-93): `status == "healthy"` and `is_available` true, in stored order. -/
def availableGpus (st : DBState) : List GPU :=
  st.gpus.filter (fun g => g.status == "healthy" && g.is_available)

/-- One iteration of the selection loop of `_find_optimal_gpu`
(`scheduler.py` 108-118): the accumulator holds the current best GPU with
its score; a candidate replaces it only on a strictly smaller score. -/
def bestGpuStep (counts : String → Nat) (acc : Option (GPU × ℚ)) (g : GPU) :
    Option (GPU × ℚ) :=
  let s := calculate_gpu_priority_score g (counts g.id)
  match acc with
  | none => some (g, s)
  | some (bg, bs) => if s < bs then some (g, s) else some (bg, bs)

/-- The selection loop of `_find_optimal_gpu` over an explicit candidate
list (the DB query result, in stored order). -/
def findOptimalGpuFrom (gpus : List GPU) (counts : String → Nat) : Option GPU :=
  (gpus.foldl (bestGpuStep counts) none).map Prod.fst

/-- `JobScheduler._find_optimal_gpu` (`scheduler.py` 84-123). -/
def find_optimal_gpu (st : DBState) : Option GPU :=
  findOptimalGpuFrom (availableGpus st) (fun gid => countActiveJobsOn st.jobs gid)

/-- The dict returned by `schedule_job` (`scheduler.py` 17-80), modelled as a
record of optional fields where `none` means the key is absent from the
Python dict. `gpu_temp` and `gpu_util` copy nullable columns, hence the
nested options. -/
structure SubmitResult where
  status : String
  job_id : Option Nat := none
  gpu : Option String := none
  gpu_temp : Option (Option Int) := none
  gpu_util : Option (Option Int) := none
  pid : Option Int := none
  message : Option String := none
  error : Option String := none
deriving DecidableEq, Repr

/-- `JobScheduler._is_local_agent` (`scheduler.py` 166-178): look the agent
up by id (a missing id, including a null `job.agent_id`, yields `False`) and
test whether the control-plane hostname is a substring of the agent
hostname. -/
def find_agent (agents : List Agent) : Option Nat → Option Agent
  | none => none
  | some aid => agents.find? (fun a => a.id == aid)

/-- `JobScheduler._is_local_agent` (`scheduler.py` 166-178). -/
def is_local_agent (localHostname : String) (agents : List Agent)
    (aid : Option Nat) : Bool :=
  match find_agent agents aid with
  | none => false
  | some a => strContains a.hostname localHostname

/-- HTTP 200 body of the remote executor launch call as read by
`_launch_remote_job` (`scheduler.py` 236-239): `result.get("pid")` may be
absent, so the recorded handle is an `Option Int`. -/
structure RemoteLaunchResp where
  code : Nat
  pid : Option Int
deriving DecidableEq, Repr

/-- External outcomes consumed by one `schedule_job` call: the control-plane
hostname (for `_is_local_agent`), the local subprocess spawn outcome
(`none` = `Popen` raised, `some p` = spawned with OS pid `p`), and the
remote launch outcome (`none` = request exception). -/
structure LaunchEnv where
  localHostname : String
  spawn : Option Nat
  remote : Option RemoteLaunchResp
deriving Repr

/-- `JobScheduler._launch_local_job` (`scheduler.py` 183-215): on a
successful spawn the OS pid is stored on the job and `True` is returned; any
exception returns `False` with the job untouched. -/
def launch_local_job (spawn : Option Nat) (j : Job) : Job × Bool :=
  match spawn with
  | none => (j, false)
  | some p => ({ j with pid := some (p : Int) }, true)

/-- `JobScheduler._launch_remote_job` (`scheduler.py` 217-247): HTTP 200
stores `result.get("pid")` (possibly absent) and returns `True`; a non-200
response or a request exception returns `False`. -/
def launch_remote_job (resp : Option RemoteLaunchResp) (j : Job) : Job × Bool :=
  match resp with
  | none => (j, false)
  | some r => if r.code = 200 then ({ j with pid := r.pid }, true) else (j, false)

/-- The queued-job path of `schedule_job` (`scheduler.py` 30-41). -/
def queueJob (st : DBState) (now : Nat) (workload_type command : String) :
    DBState × SubmitResult :=
  let job : Job :=
    { id := st.nextJobId, workload_type := workload_type, command := command,
      status := "queued", assigned_gpu_id := none, agent_id := none,
      pid := none, created_at := now, started_at := none, finished_at := none }
  ({ st with jobs := st.jobs ++ [job],
             history := st.history ++
               [{ job_id := job.id, action := "queued",
                  details := "No available GPUs, job queued", timestamp := now }],
             nextJobId := st.nextJobId + 1 },
   { status := "queued", job_id := some job.id,
     message := some "No GPUs available" })

/-- The launch path of `schedule_job` (`scheduler.py` 43-76): create the
pending job, launch locally or remotely, then mark it running (with
`started_at`) or failed, logging history. -/
def dispatchJob (st : DBState) (env : LaunchEnv) (now : Nat)
    (workload_type command : String) (g : GPU) : DBState × SubmitResult :=
  let job0 : Job :=
    { id := st.nextJobId, workload_type := workload_type, command := command,
      status := "pending", assigned_gpu_id := some g.id,
      agent_id := some g.agent_id, pid := none, created_at := now,
      started_at := none, finished_at := none }
  let isLocal := is_local_agent env.localHostname st.agents (some g.agent_id)
  let launched :=
    if isLocal then launch_local_job env.spawn job0
    else launch_remote_job env.remote job0
  if launched.2 then
    let job2 := { launched.1 with status := "running", started_at := some now }
    ({ st with jobs := st.jobs ++ [job2],
               history := st.history ++
                 [{ job_id := job2.id, action := "started",
                    details := "Job running on " ++ g.name ++ " (Temp: " ++
                      pyStrOptInt g.temperature ++ "°C, Util: " ++
                      pyStrOptInt g.utilization ++ "%)",
                    timestamp := now }],
               nextJobId := st.nextJobId + 1 },
     { status := "running", job_id := some job2.id, gpu := some g.name,
       gpu_temp := some g.temperature, gpu_util := some g.utilization })
  else
    let job2 := { launched.1 with status := "failed" }
    ({ st with jobs := st.jobs ++ [job2],
               history := st.history ++
                 [{ job_id := job2.id, action := "failed",
                    details := "Failed to launch job", timestamp := now }],
               nextJobId := st.nextJobId + 1 },
     { status := "failed", job_id := some job2.id,
       error := some "Launch failed" })

/-- The GPU-selection step of `schedule_job` (`scheduler.py` 21-28): a
truthy `preferred_gpu` other than the sentinel `auto` is looked up directly
(over all GPUs, unfiltered); otherwise `_find_optimal_gpu` runs. -/
def selected_gpu_for (st : DBState) (preferred_gpu : Option String) : Option GPU :=
  match preferred_gpu with
  | some p =>
    if p != "" && p != "auto" then st.gpus.find? (fun g => g.id == p)
    else find_optimal_gpu st
  | none => find_optimal_gpu st

/-- `JobScheduler.schedule_job` (`scheduler.py` 17-82). -/
def schedule_job (st : DBState) (env : LaunchEnv) (now : Nat)
    (workload_type command : String) (preferred_gpu : Option String) :
    DBState × SubmitResult :=
  let usePreferred :=
    match preferred_gpu with
    | some p => p != "" && p != "auto"
    | none => false
  if usePreferred then
    match st.gpus.find? (fun g => g.id == preferred_gpu.getD "") with
    | none =>
      (st, { status := "error",
             message := some ("GPU " ++ preferred_gpu.getD "" ++ " not found") })
    | some g => dispatchJob st env now workload_type command g
  else
    match find_optimal_gpu st with
    | none => queueJob st now workload_type command
    | some g => dispatchJob st env now workload_type command g

/-- Result of the local process probe `psutil.Process(pid)` in
`monitor_jobs` (`scheduler.py` 272-282). -/
inductive LocalProbe
  | noSuchProcess
  | running
  | notRunning
deriving DecidableEq, Repr

/-- Result of the remote `GET /agent/job-status/{pid}` probe in
`monitor_jobs` (`scheduler.py` 289-303): a transport error, or a response
with an HTTP code and the optional `status` field of its JSON body. -/
inductive ProbeResult
  | transportError
  | resp (code : Nat) (statusField : Option String)
deriving DecidableEq, Repr

/-- External outcomes consumed by one `monitor_jobs` tick: the control-plane
hostname plus, per job id, the local process probe and the remote status
probe. -/
structure MonitorEnv where
  localHostname : String
  procProbe : Nat → LocalProbe
  remoteProbe : Nat → ProbeResult

/-- The body of the per-job loop of `monitor_jobs` (`scheduler.py` 265-303),
returning the updated job row and the history rows it appends.  Only jobs
with `status == "running"` and a truthy pid are examined; a local probe
failure or a remote report of `not_running`/`not_found` completes the job;
a missing agent, a transport error or a non-200 probe response leaves it
untouched. -/
def monitor_job_step (env : MonitorEnv) (agents : List Agent) (now : Nat)
    (j : Job) : Job × List History :=
  if j.status == "running" && pyTruthy j.pid then
    if is_local_agent env.localHostname agents j.agent_id then
      match env.procProbe j.id with
      | LocalProbe.running => (j, [])
      | LocalProbe.notRunning =>
        ({ j with status := "completed", finished_at := some now },
         [{ job_id := j.id, action := "completed",
            details := "Job process finished.", timestamp := now }])
      | LocalProbe.noSuchProcess =>
        ({ j with status := "completed", finished_at := some now },
         [{ job_id := j.id, action := "completed",
            details := "Job process not found, assuming completed.",
            timestamp := now }])
    else
      match find_agent agents j.agent_id with
      | none => (j, [])
      | some a =>
        match env.remoteProbe j.id with
        | ProbeResult.transportError => (j, [])
        | ProbeResult.resp code statusField =>
          if code = 200 then
            if statusField == some "not_running" || statusField == some "not_found" then
              ({ j with status := "completed", finished_at := some now },
               [{ job_id := j.id, action := "completed",
                  details := "Remote job finished on " ++ a.hostname ++ ".",
                  timestamp := now }])
            else (j, [])
          else (j, [])
  else (j, [])

/-- `JobScheduler.monitor_jobs` (`scheduler.py` 259-307): every running job
with a truthy pid is probed and possibly completed; all updates are
committed together at the end of the tick. -/
def monitor_jobs (env : MonitorEnv) (now : Nat) (st : DBState) : DBState :=
  { st with
    jobs := st.jobs.map (fun j => (monitor_job_step env st.agents now j).1),
    history := st.history ++
      st.jobs.flatMap (fun j => (monitor_job_step env st.agents now j).2) }

/-- The dict returned by `JobScheduler.get_job_status` (`scheduler.py`
309-329), as a record of optional fields (`none` = key absent).  The
not-found branch returns only an `error` key; in particular it carries no
`status` key at all. -/
structure JobStatusDict where
  error : Option String := none
  id : Option Nat := none
  status : Option String := none
  workload_type : Option String := none
  command : Option String := none
  gpu : Option (Option String) := none
  agent : Option (Option String) := none
deriving DecidableEq, Repr

/-- `JobScheduler.get_job_status` (`scheduler.py` 309-329). -/
def get_job_status (st : DBState) (jobId : Nat) : JobStatusDict :=
  match st.jobs.find? (fun j => j.id == jobId) with
  | none => { error := some "Job not found" }
  | some j =>
    { id := some j.id, status := some j.status,
      workload_type := some j.workload_type, command := some j.command,
      gpu := some ((j.assigned_gpu_id.bind
        (fun gid => st.gpus.find? (fun g => g.id == gid))).map (fun g => g.name)),
      agent := some ((find_agent st.agents j.agent_id).map (fun a => a.hostname)) }

/-- The `/api/v1/jobs/{job_id}/status` endpoint `get_job_status`
(`main.py` 447-462): the scheduler result is mapped to an HTTP code by
testing for an `error` key together with `status == "not_found"`. -/
def get_job_status_endpoint (st : DBState) (jobId : Nat) : Nat × JobStatusDict :=
  let result := get_job_status st jobId
  if result.error.isSome && result.status == some "not_found" then (404, result)
  else if result.error.isSome then (500, result)
  else (200, result)

/-- Result dict of the cancel operation. -/
structure CancelResult where
  status : String
deriving DecidableEq, Repr

/-- Modelled from the spec: `JobScheduler.cancel_job` is invoked by the
`/api/v1/jobs/{job_id}/cancel` endpoint (`main.py` 479-494) but no such
method exists in `backend/scheduler.py`; only its caller is in the sources.
Following section 4.6 of the spec: an unknown id yields `not_found`; a
running job is terminated (signal or executor call), marked `cancelled`
with `finished_at` set and a history entry; a job in a terminal state
yields `already_finished` without mutation; any other non-running job
yields `not_running` without mutation. -/
def cancel_job (st : DBState) (now : Nat) (jobId : Nat) :
    DBState × CancelResult :=
  match st.jobs.find? (fun j => j.id == jobId) with
  | none => (st, { status := "not_found" })
  | some j =>
    if j.status == "running" then
      ({ st with
         jobs := st.jobs.map (fun k =>
           if k.id == jobId then
             { k with status := "cancelled", finished_at := some now }
           else k),
         history := st.history ++
           [{ job_id := jobId, action := "cancelled",
              details := "Job cancelled by user", timestamp := now }] },
       { status := "cancelled" })
    else if j.status == "completed" || j.status == "failed"
        || j.status == "cancelled" then
      (st, { status := "already_finished" })
    else
      (st, { status := "not_running" })

/-- One GPU entry of an agent report as read by `agent_report_in`
(`main.py` 197-212): every field is read with `.get`, so all are optional
except `id`, which the agent protocol always sends (a report without it
cannot be committed and falls under the rollback path). -/
structure GpuReportEntry where
  id : String
  name : Option String := none
  model : Option String := none
  status : Option String := none
  temperature : Option Int := none
  utilization : Option Int := none
  memoryTotal : Option Int := none
  memoryUsed : Option Int := none
  pci_bus_id : Option String := none
deriving DecidableEq, Repr

/-- A validated agent report (`AgentReportIn` in `main.py`): pydantic has
already checked hostname and ip for non-emptiness. -/
structure AgentReport where
  hostname : String
  ip_address : String
  os : String
  gpus : List GpuReportEntry
deriving DecidableEq, Repr

/-- The GPU row built from one report entry (`main.py` 199-212), with the
defaults of the source: name "Unknown GPU", model "Unknown Model", status
"unknown", numeric fields 0, `is_available := status == "healthy"`, and
`vram` the floor-divided memory total when truthy. -/
def mkReportedGpu (aid : Nat) (g : GpuReportEntry) : GPU :=
  { id := g.id,
    agent_id := aid,
    name := g.name.getD "Unknown GPU",
    model := g.model.getD "Unknown Model",
    status := g.status.getD "unknown",
    temperature := some (g.temperature.getD 0),
    utilization := some (g.utilization.getD 0),
    memory_total := some (g.memoryTotal.getD 0),
    memory_used := some (g.memoryUsed.getD 0),
    vram := if pyTruthy g.memoryTotal then
        Int.fdiv (g.memoryTotal.getD 0) (1024 ^ 3) else 0,
    is_available := g.status == some "healthy",
    pci_bus_id := g.pci_bus_id.getD "" }

/-- The id under which the report agent is stored: the existing row id on a
hostname match, else the next fresh id (`main.py` 176-189). -/
def upsertedAgentId (st : DBState) (hostname : String) : Nat :=
  match st.agents.find? (fun a => a.hostname == hostname) with
  | some a => a.id
  | none => st.nextAgentId

/-- Response of the report-in endpoint; `httpCode` 200 carries the added
and removed GPU counts, 500 is the rollback path. -/
structure IngestResult where
  httpCode : Nat
  gpus_added : Nat := 0
  gpus_removed : Nat := 0
deriving DecidableEq, Repr

/-- The `/api/v1/agent/report-in` endpoint `agent_report_in` (`main.py`
162-236): upsert the agent by hostname, delete all its GPUs, insert the
reported ones, and commit everything at once.  `commitOk` is the oracle for
the single `db.commit()`: on failure the session rolls back and the
previous state stays visible (the 500 path). -/
def agent_report_in (st : DBState) (report : AgentReport) (now : Nat)
    (commitOk : Bool) : DBState × IngestResult :=
  if commitOk then
    let aid := upsertedAgentId st report.hostname
    let agents' :=
      match st.agents.find? (fun a => a.hostname == report.hostname) with
      | some _ =>
        st.agents.map (fun b =>
          if b.hostname == report.hostname then
            { b with ip_address := report.ip_address, os := report.os,
                     last_seen := now }
          else b)
      | none =>
        st.agents ++
          [{ id := st.nextAgentId, hostname := report.hostname,
             ip_address := report.ip_address, os := report.os,
             last_seen := now }]
    let nextAid :=
      match st.agents.find? (fun a => a.hostname == report.hostname) with
      | some _ => st.nextAgentId
      | none => st.nextAgentId + 1
    let removed := (st.gpus.filter (fun g => g.agent_id == aid)).length
    let kept := st.gpus.filter (fun g => !(g.agent_id == aid))
    let newGpus := report.gpus.map (mkReportedGpu aid)
    ({ st with agents := agents', gpus := kept ++ newGpus,
               nextAgentId := nextAid },
     { httpCode := 200, gpus_added := newGpus.length, gpus_removed := removed })
  else
    (st, { httpCode := 500 })

/-- The GPU rows currently owned by one agent, in stored order. -/
def gpusOfAgent (st : DBState) (aid : Nat) : List GPU :=
  st.gpus.filter (fun g => g.agent_id == aid)

/-! Concrete fixtures used by counterexamples and witnesses. -/

/-- A GPU whose memory fields are both reported, with `memory_used = 0`
(the scenario of scoring law 9 in the spec). -/
def gMemZero : GPU where
  id := "GPU-0"
  agent_id := 1
  name := "NVIDIA A100"
  model := "A100"
  status := "healthy"
  temperature := some 50
  utilization := some 0
  memory_total := some 100
  memory_used := some 0
  vram := 0
  is_available := true
  pci_bus_id := ""

/-- A store holding one job already in the terminal state `completed`. -/
def stDone : DBState where
  agents := [{ id := 1, hostname := "hub-host-main", ip_address := "10.0.0.1",
               os := "linux", last_seen := 0 }]
  gpus := []
  jobs := [{ id := 1, workload_type := "train", command := "python run.py",
             status := "completed", assigned_gpu_id := some "GPU-0",
             agent_id := some 1, pid := some 4242, created_at := 0,
             started_at := some 1, finished_at := some 2 }]
  history := [{ job_id := 1, action := "started", details := "d", timestamp := 1 }]
  nextJobId := 2
  nextAgentId := 2

/-- C1: for every job whose status is a terminal state, `cancel_job` returns
`already_finished` and leaves the whole store (job rows, history, agents,
GPUs) unchanged. -/
theorem cancel_terminal_already_finished_no_mutation
    (st : DBState) (now jobId : Nat) (j : Job)
    (hfind : st.jobs.find? (fun k => k.id == jobId) = some j)
    (hterm : j.status = "completed" ∨ j.status = "failed" ∨ j.status = "cancelled") :
    cancel_job st now jobId = (st, { status := "already_finished" }) := by
  unfold cancel_job
  rw [hfind]
  rcases hterm with h | h | h <;> simp [h]

/-- C1 witness: cancelling the completed job of `stDone` returns
`already_finished` and mutates nothing. -/
theorem cancel_terminal_already_finished_no_mutation_witness :
    cancel_job stDone 5 1 = (stDone, { status := "already_finished" }) :=
  cancel_terminal_already_finished_no_mutation stDone 5 1
    { id := 1, workload_type := "train", command := "python run.py",
      status := "completed", assigned_gpu_id := some "GPU-0",
      agent_id := some 1, pid := some 4242, created_at := 0,
      started_at := some 1, finished_at := some 2 }
    (by decide) (Or.inl rfl)

/-- C3 counterexample: on the spec scenario GPU (temperature 50,
utilization 0, zero active jobs, `memory_used = 0`, `memory_total = 100`)
the priority score is 175, not the claimed 100: Python treats the stored
`0` for `memory_used` as falsy, so the memory term takes the 50 percent
default instead of the real 0 percent usage. -/
theorem score_mem_zero_counterexample :
    calculate_gpu_priority_score gMemZero 0 = 175 ∧
    calculate_gpu_priority_score gMemZero 0 ≠ 100 := by
  have h : calculate_gpu_priority_score gMemZero 0 = 175 := by
    norm_num [calculate_gpu_priority_score, pyOrInt, pyTruthy, gMemZero]
  exact ⟨h, by rw [h]; norm_num⟩

/-- C3 amended: for every GPU with temperature 50, utilization 0 and
`memory_used = 0`, the score at zero active jobs is
2·50 + 3·0 + 5·0 + 1.5·50 = 175, the memory term falling back to the 50
percent default because a stored 0 is falsy in the source guard. -/
theorem score_mem_zero_amended (g : GPU)
    (ht : g.temperature = some 50) (hu : g.utilization = some 0)
    (hm : g.memory_used = some 0) :
    calculate_gpu_priority_score g 0 = 175 := by
  norm_num [calculate_gpu_priority_score, pyOrInt, pyTruthy, ht, hu, hm]

/-- C3 amended witness: the concrete scenario GPU evaluates to 175. -/
theorem score_mem_zero_amended_witness :
    calculate_gpu_priority_score gMemZero 0 = 175 :=
  score_mem_zero_amended gMemZero rfl rfl rfl

/-- C5: a successful ingest replaces the reporting agent GPU set with
exactly the reported list (each entry inserted with
`is_available := status == "healthy"`), and a failed ingest (commit
failure, rollback) leaves the store, hence the previous GPU set,
untouched; the state changes in one step, so no partial set is ever
observable. -/
theorem ingest_atomic_gpu_replacement (st : DBState) (report : AgentReport)
    (now : Nat) :
    gpusOfAgent (agent_report_in st report now true).1
        (upsertedAgentId st report.hostname)
      = report.gpus.map (mkReportedGpu (upsertedAgentId st report.hostname)) ∧
    report.gpus.map (fun g =>
        (mkReportedGpu (upsertedAgentId st report.hostname) g).is_available)
      = report.gpus.map (fun g => g.status == some "healthy") ∧
    (agent_report_in st report now false).1 = st := by
  refine ⟨?_, rfl, rfl⟩
  simp only [agent_report_in, gpusOfAgent, if_true]
  rw [List.filter_append]
  have h1 : ∀ l : List GPU,
      (l.filter (fun g => !(g.agent_id == upsertedAgentId st report.hostname))).filter
        (fun g => g.agent_id == upsertedAgentId st report.hostname) = [] := by
    intro l
    rw [List.filter_filter]
    simp
  have h2 :
      (report.gpus.map (mkReportedGpu (upsertedAgentId st report.hostname))).filter
        (fun g => g.agent_id == upsertedAgentId st report.hostname)
      = report.gpus.map (mkReportedGpu (upsertedAgentId st report.hostname)) := by
    apply List.filter_eq_self.mpr
    intro g hg
    rcases List.mem_map.mp hg with ⟨e, -, he⟩
    subst he
    simp [mkReportedGpu]
  rw [h1, h2, List.nil_append]

/-- C7: with no job under the requested id, the scheduler returns the dict
with only an `error` key and no `status` key, so the endpoint branch
testing `status == "not_found"` never fires and the request is answered
with HTTP 500, not the documented 404; a present id is answered 200 with
the snapshot. -/
theorem job_status_missing_returns_500 :
    (get_job_status_endpoint stDone 99).1 = 500 ∧
    (get_job_status stDone 99).error = some "Job not found" ∧
    (get_job_status stDone 99).status = none ∧
    (get_job_status_endpoint stDone 1).1 = 200 ∧
    (get_job_status stDone 1).status = some "completed" := by
  decide

/-! Fixtures for the submit path: a store with one remote agent and a store
with one local agent, each owning a single healthy GPU. -/

/-- A healthy GPU owned by agent 1, with distinct `id` and `name`. -/
def gSingle : GPU where
  id := "GPU-0"
  agent_id := 1
  name := "NVIDIA A100"
  model := "A100"
  status := "healthy"
  temperature := some 40
  utilization := some 10
  memory_total := some 1000
  memory_used := some 100
  vram := 0
  is_available := true
  pci_bus_id := ""

/-- Store with one remote agent (hostname does not contain the control-plane
hostname) owning `gSingle`; no jobs yet. -/
def stRemote : DBState where
  agents := [{ id := 1, hostname := "worker-node-7", ip_address := "10.0.0.2",
               os := "linux", last_seen := 0 }]
  gpus := [gSingle]
  jobs := []
  history := []
  nextJobId := 1
  nextAgentId := 2

/-- Launch outcomes where the remote executor answers HTTP 200 but its JSON
body carries no `pid` key, so `result.get("pid")` is `None`. -/
def envRemoteNoPid : LaunchEnv where
  localHostname := "hub-host"
  spawn := none
  remote := some { code := 200, pid := none }

/-- Store with one local agent (hostname contains the control-plane
hostname) owning `gSingle`; no jobs yet. -/
def stLocal : DBState where
  agents := [{ id := 1, hostname := "hub-host-main", ip_address := "10.0.0.1",
               os := "linux", last_seen := 0 }]
  gpus := [gSingle]
  jobs := []
  history := []
  nextJobId := 1
  nextAgentId := 2

/-- Launch outcomes where the local subprocess spawn succeeds with OS pid
4242. -/
def envLocalOk : LaunchEnv where
  localHostname := "hub-host"
  spawn := some 4242
  remote := none

/-- Invariant J1 of the spec: every running job carries a GPU assignment,
an agent, a pid and a start time. -/
def RunningCoherent (st : DBState) : Prop :=
  ∀ j ∈ st.jobs, j.status = "running" →
    j.assigned_gpu_id ≠ none ∧ j.agent_id ≠ none ∧ j.pid ≠ none ∧
    j.started_at ≠ none

/-- Side condition under which dispatch always records a pid: every HTTP 200
remote-launch response carries a `pid` value (the executor contract of the
spec promises this, but the hub does not enforce it). -/
def RemotePidOk (env : LaunchEnv) : Prop :=
  ∀ r, env.remote = some r → r.code = 200 → r.pid ≠ none

lemma launch_local_job_id (s : Option Nat) (j : Job) :
    (launch_local_job s j).1.id = j.id := by
  cases s <;> rfl

lemma launch_remote_job_id (r : Option RemoteLaunchResp) (j : Job) :
    (launch_remote_job r j).1.id = j.id := by
  cases r with
  | none => rfl
  | some r =>
    unfold launch_remote_job
    by_cases h : r.code = 200 <;> simp [h]

lemma agent_report_in_jobs (st : DBState) (r : AgentReport) (now : Nat)
    (ok : Bool) : (agent_report_in st r now ok).1.jobs = st.jobs := by
  cases ok <;> rfl

/-- The launch path appends exactly one job row; when that row ends up
running it is fully populated (given `RemotePidOk` for the remote case). -/
lemma dispatchJob_jobs (st : DBState) (env : LaunchEnv) (now : Nat)
    (wt cmd : String) (g : GPU) :
    ∃ jb : Job, (dispatchJob st env now wt cmd g).1.jobs = st.jobs ++ [jb] ∧
      (jb.status = "running" →
        jb.assigned_gpu_id = some g.id ∧ jb.agent_id = some g.agent_id ∧
        jb.started_at = some now ∧ (RemotePidOk env → jb.pid ≠ none)) := by
  unfold dispatchJob
  by_cases hl : is_local_agent env.localHostname st.agents (some g.agent_id)
  · cases hs : env.spawn with
    | none =>
      refine ⟨{ id := st.nextJobId, workload_type := wt, command := cmd,
                status := "failed", assigned_gpu_id := some g.id,
                agent_id := some g.agent_id, pid := none, created_at := now,
                started_at := none, finished_at := none },
              by simp [hl, hs, launch_local_job], ?_⟩
      intro hr
      simp at hr
    | some p =>
      refine ⟨{ id := st.nextJobId, workload_type := wt, command := cmd,
                status := "running", assigned_gpu_id := some g.id,
                agent_id := some g.agent_id, pid := some (p : Int),
                created_at := now, started_at := some now,
                finished_at := none },
              by simp [hl, hs, launch_local_job], ?_⟩
      intro _
      exact ⟨rfl, rfl, rfl, fun _ => by simp⟩
  · cases hs : env.remote with
    | none =>
      refine ⟨{ id := st.nextJobId, workload_type := wt, command := cmd,
                status := "failed", assigned_gpu_id := some g.id,
                agent_id := some g.agent_id, pid := none, created_at := now,
                started_at := none, finished_at := none },
              by simp [hl, hs, launch_remote_job], ?_⟩
      intro hr
      simp at hr
    | some r =>
      by_cases h200 : r.code = 200
      · refine ⟨{ id := st.nextJobId, workload_type := wt, command := cmd,
                  status := "running", assigned_gpu_id := some g.id,
                  agent_id := some g.agent_id, pid := r.pid,
                  created_at := now, started_at := some now,
                  finished_at := none },
                by simp [hl, hs, launch_remote_job, h200], ?_⟩
        intro _
        exact ⟨rfl, rfl, rfl, fun hp => hp r hs h200⟩
      · refine ⟨{ id := st.nextJobId, workload_type := wt, command := cmd,
                  status := "failed", assigned_gpu_id := some g.id,
                  agent_id := some g.agent_id, pid := none,
                  created_at := now, started_at := none,
                  finished_at := none },
                by simp [hl, hs, launch_remote_job, h200], ?_⟩
        intro hr
        simp at hr

/-- Every iteration of the supervisor loop either leaves a job row exactly
as it was or completes it. -/
lemma monitor_job_step_cases (env : MonitorEnv) (agents : List Agent)
    (now : Nat) (j : Job) :
    (monitor_job_step env agents now j).1 = j ∨
    (monitor_job_step env agents now j).1.status = "completed" := by
  unfold monitor_job_step
  by_cases hg : (j.status == "running" && pyTruthy j.pid) = true
  · by_cases hl : is_local_agent env.localHostname agents j.agent_id
    · cases hp : env.procProbe j.id <;> simp [hg, hl, hp]
    · cases hfa : find_agent agents j.agent_id with
      | none => simp [hg, hl, hfa]
      | some a =>
        cases hp : env.remoteProbe j.id with
        | transportError => simp [hg, hl, hfa, hp]
        | resp code s =>
          by_cases h200 : code = 200
          · by_cases hns : (s == some "not_running" || s == some "not_found") = true
            · simp [hg, hl, hfa, hp, h200, hns]
            · simp [hg, hl, hfa, hp, h200, hns]
          · simp [hg, hl, hfa, hp, h200]
  · simp [hg]

/-- A job that is not in the running state (or whose pid is falsy) is left
untouched by the supervisor iteration, no matter what the probes report. -/
lemma monitor_job_step_skip (env : MonitorEnv) (agents : List Agent)
    (now : Nat) (j : Job)
    (h : (j.status == "running" && pyTruthy j.pid) = false) :
    monitor_job_step env agents now j = (j, []) := by
  unfold monitor_job_step
  simp [h]

/-- A supervisor tick preserves invariant J1. -/
lemma monitor_preserves_coherent (st : DBState) (env : MonitorEnv) (now : Nat)
    (h : RunningCoherent st) : RunningCoherent (monitor_jobs env now st) := by
  intro j' hmem hrun
  simp only [monitor_jobs] at hmem
  rcases List.mem_map.mp hmem with ⟨j, hj, hstep⟩
  rcases monitor_job_step_cases env st.agents now j with hc | hc
  · rw [hc] at hstep
    subst hstep
    exact h j hj hrun
  · rw [hstep, hrun] at hc
    simp at hc

/-- The queued path appends exactly one (queued) job row. -/
lemma queueJob_jobs (st : DBState) (now : Nat) (wt cmd : String) :
    ∃ jb : Job, (queueJob st now wt cmd).1.jobs = st.jobs ++ [jb] ∧
      jb.status = "queued" :=
  ⟨_, rfl, rfl⟩

/-- `schedule_job` preserves invariant J1 whenever successful remote
launches report a pid. -/
lemma schedule_preserves_coherent (st : DBState) (env : LaunchEnv) (now : Nat)
    (wt cmd : String) (pref : Option String) (h : RunningCoherent st)
    (hp : RemotePidOk env) :
    RunningCoherent (schedule_job st env now wt cmd pref).1 := by
  have hdispatch : ∀ g : GPU,
      RunningCoherent (dispatchJob st env now wt cmd g).1 := by
    intro g
    rcases dispatchJob_jobs st env now wt cmd g with ⟨jb, hjobs, hjb⟩
    intro j' hmem hrun
    rw [hjobs] at hmem
    rcases List.mem_append.mp hmem with hold | hnew
    · exact h j' hold hrun
    · have : j' = jb := by simpa using hnew
      subst this
      rcases hjb hrun with ⟨h1, h2, h3, h4⟩
      exact ⟨by simp [h1], by simp [h2], h4 hp, by simp [h3]⟩
  have hqueue : RunningCoherent (queueJob st now wt cmd).1 := by
    rcases queueJob_jobs st now wt cmd with ⟨jb, hjobs, hjb⟩
    intro j' hmem hrun
    rw [hjobs] at hmem
    rcases List.mem_append.mp hmem with hold | hnew
    · exact h j' hold hrun
    · have : j' = jb := by simpa using hnew
      subst this
      rw [hjb] at hrun
      simp at hrun
  unfold schedule_job
  by_cases hu : (match pref with
    | some p => p != "" && p != "auto"
    | none => false) = true
  · simp only [hu, if_true]
    cases hf : st.gpus.find? (fun g => g.id == pref.getD "") with
    | none => simpa using h
    | some g => simpa using hdispatch g
  · simp only [hu, if_false, Bool.false_eq_true]
    cases hf : find_optimal_gpu st with
    | none => simpa using hqueue
    | some g => simpa using hdispatch g

/-- C2 counterexample: starting from a store satisfying J1 (no jobs), one
submit whose remote launch answers HTTP 200 without a `pid` key leaves a
job in status `running` with a null pid, violating the claimed invariant. -/
theorem running_job_null_pid_counterexample :
    RunningCoherent stRemote ∧
    ((schedule_job stRemote envRemoteNoPid 0 "train" "python run.py" none).1.jobs.map
      (fun j => (j.status, j.pid))) = [("running", (none : Option Int))] := by
  constructor
  · intro j hj
    simp [stRemote] at hj
  · decide

/-- C2 amended: after every core operation, every running job has
`assigned_gpu_id`, `agent_id` and `started_at` set, and also `pid` set
provided every successful (HTTP 200) remote-launch response carries a pid;
local launches always record the OS pid.  Supervisor ticks and ingests
preserve the invariant unconditionally. -/
theorem running_jobs_coherent_preserved (st : DBState)
    (h : RunningCoherent st) :
    (∀ env now wt cmd pref, RemotePidOk env →
       RunningCoherent (schedule_job st env now wt cmd pref).1) ∧
    (∀ env now, RunningCoherent (monitor_jobs env now st)) ∧
    (∀ report now ok, RunningCoherent (agent_report_in st report now ok).1) := by
  refine ⟨?_, ?_, ?_⟩
  · intro env now wt cmd pref hp
    exact schedule_preserves_coherent st env now wt cmd pref h hp
  · intro env now
    exact monitor_preserves_coherent st env now h
  · intro report now ok
    intro j' hmem hrun
    rw [agent_report_in_jobs] at hmem
    exact h j' hmem hrun

/-- C2 amended witness: the empty-jobs store `stRemote` satisfies J1, and a
successful local submit preserves it. -/
theorem running_jobs_coherent_preserved_witness :
    RunningCoherent stRemote ∧
    RunningCoherent (schedule_job stRemote envLocalOk 0 "train" "python run.py" none).1 := by
  have h : RunningCoherent stRemote := by
    intro j hj
    simp [stRemote] at hj
  have hp : RemotePidOk envLocalOk := by
    intro r hr
    simp [envLocalOk] at hr
  exact ⟨h, (running_jobs_coherent_preserved stRemote h).1 envLocalOk 0
    "train" "python run.py" none hp⟩

/-- The launch path returns exactly one of two response dicts: the running
response (job id, GPU name, temperature, utilization, and no pid or error
keys) or the failed response. -/
lemma dispatchJob_result (st : DBState) (env : LaunchEnv) (now : Nat)
    (wt cmd : String) (g : GPU) :
    (dispatchJob st env now wt cmd g).2
      = { status := "running", job_id := some st.nextJobId, gpu := some g.name,
          gpu_temp := some g.temperature, gpu_util := some g.utilization } ∨
    (dispatchJob st env now wt cmd g).2
      = { status := "failed", job_id := some st.nextJobId,
          error := some "Launch failed" } := by
  unfold dispatchJob
  by_cases hl : is_local_agent env.localHostname st.agents (some g.agent_id)
  · cases hs : env.spawn with
    | none => right; simp [hl, hs, launch_local_job]
    | some p => left; simp [hl, hs, launch_local_job]
  · cases hs : env.remote with
    | none => right; simp [hl, hs, launch_remote_job]
    | some r =>
      by_cases h200 : r.code = 200
      · left; simp [hl, hs, launch_remote_job, h200]
      · right; simp [hl, hs, launch_remote_job, h200]

/-- When the selection step yields a GPU, `schedule_job` runs the launch
path on it. -/
lemma schedule_job_eq_dispatch (st : DBState) (env : LaunchEnv) (now : Nat)
    (wt cmd : String) (pref : Option String) (g : GPU)
    (hsel : selected_gpu_for st pref = some g) :
    schedule_job st env now wt cmd pref = dispatchJob st env now wt cmd g := by
  unfold selected_gpu_for at hsel
  unfold schedule_job
  cases pref with
  | none =>
    have hsel' : find_optimal_gpu st = some g := hsel
    simp [hsel']
  | some p =>
    by_cases hc : (p != "" && p != "auto") = true
    · simp only [hc, if_true] at hsel
      simp [hc, hsel]
    · simp only [Bool.not_eq_true] at hc
      simp only [hc, Bool.false_eq_true, if_false] at hsel
      simp [hc, hsel]

/-- C6 counterexample: a concrete successful submit on a local agent.  The
response dict has no `pid` key at all, and its `gpu` key holds the selected
GPU name, not its id: the job row carries `assigned_gpu_id = "GPU-0"` while
the response says `gpu = "NVIDIA A100"`. -/
theorem submit_response_no_pid_counterexample :
    (schedule_job stLocal envLocalOk 0 "train" "python run.py" none).2
      = { status := "running", job_id := some 1, gpu := some "NVIDIA A100",
          gpu_temp := some (some 40), gpu_util := some (some 10) } ∧
    (schedule_job stLocal envLocalOk 0 "train" "python run.py" none).2.pid
      = none ∧
    (schedule_job stLocal envLocalOk 0 "train" "python run.py" none).2.gpu
      ≠ some "GPU-0" ∧
    ((schedule_job stLocal envLocalOk 0 "train" "python run.py" none).1.jobs.map
      (fun j => j.assigned_gpu_id)) = [some "GPU-0"] := by
  refine ⟨by decide, by decide, by decide, by decide⟩

/-- C6 amended: every submit whose placement and launch succeed responds
with status `running`, the new job id, and the selected GPU name,
temperature and utilization; the response carries no `pid` key (and no
`error` or `message` key). -/
theorem submit_success_response_fields (st : DBState) (env : LaunchEnv)
    (now : Nat) (wt cmd : String) (pref : Option String) (g : GPU)
    (hsel : selected_gpu_for st pref = some g)
    (hrun : (schedule_job st env now wt cmd pref).2.status = "running") :
    (schedule_job st env now wt cmd pref).2
      = { status := "running", job_id := some st.nextJobId, gpu := some g.name,
          gpu_temp := some g.temperature, gpu_util := some g.utilization } := by
  have heq := schedule_job_eq_dispatch st env now wt cmd pref g hsel
  rw [heq] at hrun ⊢
  rcases dispatchJob_result st env now wt cmd g with hc | hc
  · exact hc
  · rw [hc] at hrun
    simp at hrun

/-- C6 amended witness: the concrete successful submit on `stLocal`. -/
theorem submit_success_response_fields_witness :
    selected_gpu_for stLocal none = some gSingle ∧
    (schedule_job stLocal envLocalOk 0 "train" "python run.py" none).2.status
      = "running" ∧
    (schedule_job stLocal envLocalOk 0 "train" "python run.py" none).2
      = { status := "running", job_id := some 1, gpu := some "NVIDIA A100",
          gpu_temp := some (some 40), gpu_util := some (some 10) } := by
  have h1 : selected_gpu_for stLocal none = some gSingle := by decide
  have h2 : (schedule_job stLocal envLocalOk 0 "train" "python run.py" none).2.status
      = "running" := by decide
  exact ⟨h1, h2,
    (submit_success_response_fields stLocal envLocalOk 0 "train"
      "python run.py" none gSingle h1 h2).trans (by decide)⟩

/-- Iterated supervisor ticks, each with its own probe outcomes and clock. -/
def applyTicks (ticks : List (MonitorEnv × Nat)) (st : DBState) : DBState :=
  ticks.foldl (fun s t => monitor_jobs t.1 t.2 s) st

/-- C8: a running remote job whose status probe fails with a transport
error or any non-200 response is left completely untouched by the
supervisor tick: same row, no history entry, and it is still present
unchanged in the ticked store. -/
theorem probe_failure_never_transitions (st : DBState) (env : MonitorEnv)
    (now : Nat) (j : Job) (hmem : j ∈ st.jobs)
    (hrun : j.status = "running") (hpid : pyTruthy j.pid = true)
    (a : Agent) (hagent : find_agent st.agents j.agent_id = some a)
    (hnotlocal : strContains a.hostname env.localHostname = false)
    (hprobe : env.remoteProbe j.id = ProbeResult.transportError ∨
      ∀ code s, env.remoteProbe j.id = ProbeResult.resp code s → code ≠ 200) :
    monitor_job_step env st.agents now j = (j, []) ∧
    j ∈ (monitor_jobs env now st).jobs ∧
    (monitor_jobs env now st).history = st.history ++
      st.jobs.flatMap (fun k => (monitor_job_step env st.agents now k).2) := by
  have hloc : is_local_agent env.localHostname st.agents j.agent_id = false := by
    unfold is_local_agent
    rw [hagent]
    exact hnotlocal
  have hstep : monitor_job_step env st.agents now j = (j, []) := by
    unfold monitor_job_step
    rcases hprobe with hp | hp
    · simp [hrun, hpid, hloc, hagent, hp]
    · cases hpr : env.remoteProbe j.id with
      | transportError => simp [hrun, hpid, hloc, hagent, hpr]
      | resp code s =>
        have h200 : code ≠ 200 := hp code s hpr
        simp [hrun, hpid, hloc, hagent, hpr, h200]
  refine ⟨hstep, ?_, rfl⟩
  have : (monitor_job_step env st.agents now j).1 = j := by rw [hstep]
  simpa [monitor_jobs, this] using List.mem_map_of_mem
    (fun k => (monitor_job_step env st.agents now k).1) hmem

/-- Store and environment for the supervisor witnesses: one remote agent
with a running job whose probe always fails in transport. -/
def stMon : DBState where
  agents := [{ id := 1, hostname := "worker-node-7", ip_address := "10.0.0.2",
               os := "linux", last_seen := 0 }]
  gpus := [gSingle]
  jobs := [{ id := 1, workload_type := "train", command := "python run.py",
             status := "running", assigned_gpu_id := some "GPU-0",
             agent_id := some 1, pid := some 777, created_at := 0,
             started_at := some 0, finished_at := none }]
  history := []
  nextJobId := 2
  nextAgentId := 2

/-- A monitor environment whose remote probes always fail in transport. -/
def envMonDown : MonitorEnv where
  localHostname := "hub-host"
  procProbe := fun _ => LocalProbe.running
  remoteProbe := fun _ => ProbeResult.transportError

/-- C8 witness: the concrete running remote job of `stMon` under a
transport-failing probe is untouched by the tick. -/
theorem probe_failure_never_transitions_witness :
    (stMon.jobs.head?).isSome ∧
    monitor_job_step envMonDown stMon.agents 9
        { id := 1, workload_type := "train", command := "python run.py",
          status := "running", assigned_gpu_id := some "GPU-0",
          agent_id := some 1, pid := some 777, created_at := 0,
          started_at := some 0, finished_at := none }
      = ({ id := 1, workload_type := "train", command := "python run.py",
           status := "running", assigned_gpu_id := some "GPU-0",
           agent_id := some 1, pid := some 777, created_at := 0,
           started_at := some 0, finished_at := none }, []) ∧
    { id := 1, workload_type := "train", command := "python run.py",
      status := "running", assigned_gpu_id := some "GPU-0",
      agent_id := some 1, pid := some 777, created_at := 0,
      started_at := some 0, finished_at := none }
      ∈ (monitor_jobs envMonDown 9 stMon).jobs := by
  have h := probe_failure_never_transitions stMon envMonDown 9
    { id := 1, workload_type := "train", command := "python run.py",
      status := "running", assigned_gpu_id := some "GPU-0",
      agent_id := some 1, pid := some 777, created_at := 0,
      started_at := some 0, finished_at := none }
    (by decide) rfl (by decide)
    { id := 1, hostname := "worker-node-7", ip_address := "10.0.0.2",
      os := "linux", last_seen := 0 }
    (by decide) (by decide) (Or.inl rfl)
  exact ⟨by decide, h.1, h.2.1⟩

/-- C9: a running job whose pid is null (or the falsy 0) is skipped by the
supervisor entirely: the per-job step returns it unchanged with no history
for every possible probe environment (so no probe outcome can ever affect
it), and any number of ticks leaves it present and untouched in the
store. -/
theorem null_pid_running_job_never_transitions (j : Job)
    (hrun : j.status = "running") (hpid : j.pid = none ∨ j.pid = some 0) :
    (∀ env agents now, monitor_job_step env agents now j = (j, [])) ∧
    (∀ (ticks : List (MonitorEnv × Nat)) (st : DBState),
       j ∈ st.jobs → j ∈ (applyTicks ticks st).jobs) := by
  have hpt : pyTruthy j.pid = false := by
    rcases hpid with h | h <;> simp [h, pyTruthy]
  have hstep : ∀ env agents now, monitor_job_step env agents now j = (j, []) := by
    intro env agents now
    apply monitor_job_step_skip
    simp [hpt]
  refine ⟨hstep, ?_⟩
  intro ticks
  induction ticks with
  | nil =>
    intro st hmem
    simpa [applyTicks] using hmem
  | cons t ts ih =>
    intro st hmem
    have hnext : j ∈ (monitor_jobs t.1 t.2 st).jobs := by
      have : (monitor_job_step t.1 st.agents t.2 j).1 = j := by
        rw [hstep t.1 st.agents t.2]
      simpa [monitor_jobs, this] using List.mem_map_of_mem
        (fun k => (monitor_job_step t.1 st.agents t.2 k).1) hmem
    have : applyTicks (t :: ts) st = applyTicks ts (monitor_jobs t.1 t.2 st) := rfl
    rw [this]
    exact ih (monitor_jobs t.1 t.2 st) hnext

/-- A monitor environment with aggressive probes: every local process looks
gone and every remote probe reports the job finished. -/
def envMonAggressive : MonitorEnv where
  localHostname := "hub-host"
  procProbe := fun _ => LocalProbe.noSuchProcess
  remoteProbe := fun _ => ProbeResult.resp 200 (some "not_found")

/-- The running job with a null pid used by the C9 witness. -/
def jNullPid : Job where
  id := 3
  workload_type := "train"
  command := "python run.py"
  status := "running"
  assigned_gpu_id := some "GPU-0"
  agent_id := some 1
  pid := none
  created_at := 0
  started_at := some 0
  finished_at := none

/-- Store holding `jNullPid` on a local agent. -/
def stNullPid : DBState where
  agents := [{ id := 1, hostname := "hub-host-main", ip_address := "10.0.0.1",
               os := "linux", last_seen := 0 }]
  gpus := [gSingle]
  jobs := [jNullPid]
  history := []
  nextJobId := 4
  nextAgentId := 2

/-- C9 witness: even under probes that report every process gone, two ticks
leave the null-pid running job untouched and present. -/
theorem null_pid_running_job_never_transitions_witness :
    jNullPid.status = "running" ∧
    (jNullPid.pid = none ∨ jNullPid.pid = some 0) ∧
    monitor_job_step envMonAggressive stNullPid.agents 5 jNullPid
      = (jNullPid, []) ∧
    jNullPid ∈ (applyTicks [(envMonAggressive, 5), (envMonAggressive, 10)]
      stNullPid).jobs := by
  have h := null_pid_running_job_never_transitions jNullPid rfl (Or.inl rfl)
  exact ⟨rfl, Or.inl rfl, h.1 envMonAggressive stNullPid.agents 5,
    h.2 [(envMonAggressive, 5), (envMonAggressive, 10)] stNullPid (by decide)⟩

/-- C10: a queued job row is preserved, unchanged, by every core mutating
operation: submit only appends new rows, a supervisor tick only examines
rows with status `running`, and ingest never touches the jobs table (the
source has no queue-drain). -/
theorem queued_job_stays_queued (st : DBState) (j : Job) (hmem : j ∈ st.jobs)
    (hq : j.status = "queued") :
    (∀ env now wt cmd pref, j ∈ (schedule_job st env now wt cmd pref).1.jobs) ∧
    (∀ env now, j ∈ (monitor_jobs env now st).jobs) ∧
    (∀ report now ok, j ∈ (agent_report_in st report now ok).1.jobs) := by
  refine ⟨?_, ?_, ?_⟩
  · intro env now wt cmd pref
    unfold schedule_job
    by_cases hu : (match pref with
      | some p => p != "" && p != "auto"
      | none => false) = true
    · simp only [hu, if_true]
      cases hf : st.gpus.find? (fun g => g.id == pref.getD "") with
      | none => simpa using hmem
      | some g =>
        rcases dispatchJob_jobs st env now wt cmd g with ⟨jb, hjobs, -⟩
        simp only [hjobs]
        exact List.mem_append_left _ hmem
    · simp only [hu, if_false, Bool.false_eq_true]
      cases hf : find_optimal_gpu st with
      | none =>
        rcases queueJob_jobs st now wt cmd with ⟨jb, hjobs, -⟩
        simp only [hjobs]
        exact List.mem_append_left _ hmem
      | some g =>
        rcases dispatchJob_jobs st env now wt cmd g with ⟨jb, hjobs, -⟩
        simp only [hjobs]
        exact List.mem_append_left _ hmem
  · intro env now
    have hstep : monitor_job_step env st.agents now j = (j, []) := by
      apply monitor_job_step_skip
      simp [hq]
    have : (monitor_job_step env st.agents now j).1 = j := by rw [hstep]
    simpa [monitor_jobs, this] using List.mem_map_of_mem
      (fun k => (monitor_job_step env st.agents now k).1) hmem
  · intro report now ok
    rw [agent_report_in_jobs]
    exact hmem

/-- The queued job used by the C10 witness. -/
def jQueued : Job where
  id := 1
  workload_type := "train"
  command := "python run.py"
  status := "queued"
  assigned_gpu_id := none
  agent_id := none
  pid := none
  created_at := 0
  started_at := none
  finished_at := none

/-- Store holding only the queued job `jQueued`, with no GPUs. -/
def stQueued : DBState where
  agents := []
  gpus := []
  jobs := [jQueued]
  history := [{ job_id := 1, action := "queued",
                details := "No available GPUs, job queued", timestamp := 0 }]
  nextJobId := 2
  nextAgentId := 1

/-- C10 witness: the concrete queued job survives a submit, a tick and an
ingest unchanged. -/
theorem queued_job_stays_queued_witness :
    jQueued ∈ stQueued.jobs ∧ jQueued.status = "queued" ∧
    jQueued ∈ (schedule_job stQueued envLocalOk 7 "t" "echo hi" none).1.jobs ∧
    jQueued ∈ (monitor_jobs envMonAggressive 7 stQueued).jobs ∧
    jQueued ∈ (agent_report_in stQueued
      { hostname := "h1", ip_address := "10.0.0.9", os := "linux",
        gpus := [{ id := "GPU-7" }] } 7 true).1.jobs := by
  have h := queued_job_stays_queued stQueued jQueued (by decide) rfl
  exact ⟨by decide, rfl, h.1 envLocalOk 7 "t" "echo hi" none,
    h.2.1 envMonAggressive 7,
    h.2.2 { hostname := "h1", ip_address := "10.0.0.9", os := "linux",
            gpus := [{ id := "GPU-7" }] } 7 true⟩

/-- Reference form of the selection loop: the first element of the list
attaining the minimum score (head wins ties against the best of the
tail). -/
def leftmostMinGpu (scoreOf : GPU → ℚ) : List GPU → Option GPU
  | [] => none
  | g :: rest =>
    match leftmostMinGpu scoreOf rest with
    | none => some g
    | some b => if scoreOf g ≤ scoreOf b then some g else some b

lemma leftmostMinGpu_cons (s : GPU → ℚ) (g : GPU) (t : List GPU) :
    leftmostMinGpu s (g :: t)
      = match leftmostMinGpu s t with
        | none => some g
        | some b => if s g ≤ s b then some g else some b := rfl

lemma leftmostMinGpu_cons_nil (s : GPU → ℚ) (g : GPU) (t : List GPU)
    (h : leftmostMinGpu s t = none) : leftmostMinGpu s (g :: t) = some g := by
  rw [leftmostMinGpu_cons, h]

lemma leftmostMinGpu_cons_le (s : GPU → ℚ) (g : GPU) (t : List GPU) (b : GPU)
    (h : leftmostMinGpu s t = some b) (hle : s g ≤ s b) :
    leftmostMinGpu s (g :: t) = some g := by
  rw [leftmostMinGpu_cons, h]
  simp [hle]

lemma leftmostMinGpu_cons_gt (s : GPU → ℚ) (g : GPU) (t : List GPU) (b : GPU)
    (h : leftmostMinGpu s t = some b) (hgt : ¬ s g ≤ s b) :
    leftmostMinGpu s (g :: t) = some b := by
  rw [leftmostMinGpu_cons, h]
  simp [hgt]

lemma leftmostMinGpu_isSome (s : GPU → ℚ) (g : GPU) (t : List GPU) :
    ∃ r, leftmostMinGpu s (g :: t) = some r := by
  cases hlm : leftmostMinGpu s t with
  | none => exact ⟨g, leftmostMinGpu_cons_nil s g t hlm⟩
  | some b =>
    by_cases hle : s g ≤ s b
    · exact ⟨g, leftmostMinGpu_cons_le s g t b hlm hle⟩
    · exact ⟨b, leftmostMinGpu_cons_gt s g t b hlm hle⟩

/-- The element returned by `leftmostMinGpu` is a member of minimal score
and everything strictly before it scores strictly higher. -/
lemma leftmostMinGpu_spec (s : GPU → ℚ) (l : List GPU) (r : GPU)
    (h : leftmostMinGpu s l = some r) :
    r ∈ l ∧ (∀ x ∈ l, s r ≤ s x) ∧
    ∃ pre post, l = pre ++ r :: post ∧ ∀ x ∈ pre, s r < s x := by
  induction l generalizing r with
  | nil => cases h
  | cons g t ih =>
    cases hlm : leftmostMinGpu s t with
    | none =>
      rw [leftmostMinGpu_cons_nil s g t hlm] at h
      injection h with h
      subst h
      have ht : t = [] := by
        cases t with
        | nil => rfl
        | cons a t2 =>
          rcases leftmostMinGpu_isSome s a t2 with ⟨w, hw⟩
          rw [hw] at hlm
          cases hlm
      subst ht
      exact ⟨List.mem_singleton.mpr rfl, by simp, [], [], rfl, by simp⟩
    | some b =>
      by_cases hgb : s g ≤ s b
      · rw [leftmostMinGpu_cons_le s g t b hlm hgb] at h
        injection h with h
        subst h
        rcases ih b hlm with ⟨hmem, hmin, -⟩
        refine ⟨List.mem_cons_self _ _, ?_, [], t, rfl, by simp⟩
        intro x hx
        rcases List.mem_cons.mp hx with hx | hx
        · rw [hx]
        · exact le_trans hgb (hmin x hx)
      · rw [leftmostMinGpu_cons_gt s g t b hlm hgb] at h
        injection h with h
        subst h
        rcases ih b hlm with ⟨hmem, hmin, pre, post, heq, hpre⟩
        refine ⟨List.mem_cons_of_mem _ hmem, ?_, g :: pre, post,
          by rw [heq]; rfl, ?_⟩
        · intro x hx
          rcases List.mem_cons.mp hx with hx | hx
          · rw [hx]
            exact le_of_lt (lt_of_not_le hgb)
          · exact hmin x hx
        · intro x hx
          rcases List.mem_cons.mp hx with hx | hx
          · rw [hx]
            exact lt_of_not_le hgb
          · exact hpre x hx

/-- The accumulator form of the selection loop computes the same leftmost
minimum: starting from best `b`, the fold returns the leftmost minimum of
the remaining candidates when it strictly beats `b`, else `b` itself. -/
lemma foldl_bestGpuStep_eq (counts : String → Nat) (l : List GPU) (b : GPU) :
    (l.foldl (bestGpuStep counts)
        (some (b, calculate_gpu_priority_score b (counts b.id)))).map Prod.fst
      = match leftmostMinGpu
          (fun x => calculate_gpu_priority_score x (counts x.id)) l with
        | none => some b
        | some r =>
          if calculate_gpu_priority_score r (counts r.id)
              < calculate_gpu_priority_score b (counts b.id)
          then some r else some b := by
  induction l generalizing b with
  | nil => simp [leftmostMinGpu]
  | cons g t ih =>
    rw [List.foldl_cons]
    by_cases hgb : calculate_gpu_priority_score g (counts g.id)
        < calculate_gpu_priority_score b (counts b.id)
    · have hstep : bestGpuStep counts
          (some (b, calculate_gpu_priority_score b (counts b.id))) g
          = some (g, calculate_gpu_priority_score g (counts g.id)) := by
        simp [bestGpuStep, hgb]
      rw [hstep, ih g]
      cases hlm : leftmostMinGpu
          (fun x => calculate_gpu_priority_score x (counts x.id)) t with
      | none =>
        rw [leftmostMinGpu_cons_nil _ g t hlm]
        simp [hgb]
      | some r =>
        by_cases hgr : calculate_gpu_priority_score g (counts g.id)
            ≤ calculate_gpu_priority_score r (counts r.id)
        · rw [leftmostMinGpu_cons_le _ g t r hlm hgr]
          simp [not_lt.mpr hgr, hgb]
        · rw [leftmostMinGpu_cons_gt _ g t r hlm hgr]
          have hrg := lt_of_not_le hgr
          simp [hrg, hrg.trans hgb]
    · have hstep : bestGpuStep counts
          (some (b, calculate_gpu_priority_score b (counts b.id))) g
          = some (b, calculate_gpu_priority_score b (counts b.id)) := by
        simp [bestGpuStep, hgb]
      rw [hstep, ih b]
      cases hlm : leftmostMinGpu
          (fun x => calculate_gpu_priority_score x (counts x.id)) t with
      | none =>
        rw [leftmostMinGpu_cons_nil _ g t hlm]
        simp [hgb]
      | some r =>
        by_cases hgr : calculate_gpu_priority_score g (counts g.id)
            ≤ calculate_gpu_priority_score r (counts r.id)
        · rw [leftmostMinGpu_cons_le _ g t r hlm hgr]
          have hrb : ¬ calculate_gpu_priority_score r (counts r.id)
              < calculate_gpu_priority_score b (counts b.id) :=
            not_lt.mpr (le_trans (not_lt.mp hgb) hgr)
          simp [hrb, hgb]
        · rw [leftmostMinGpu_cons_gt _ g t r hlm hgr]

/-- The selection loop of `_find_optimal_gpu` returns exactly the leftmost
minimum-score candidate. -/
lemma findOptimalGpuFrom_eq_leftmostMin (gpus : List GPU)
    (counts : String → Nat) :
    findOptimalGpuFrom gpus counts
      = leftmostMinGpu
          (fun x => calculate_gpu_priority_score x (counts x.id)) gpus := by
  cases gpus with
  | nil => rfl
  | cons g t =>
    unfold findOptimalGpuFrom
    rw [List.foldl_cons]
    have hstep : bestGpuStep counts none g
        = some (g, calculate_gpu_priority_score g (counts g.id)) := rfl
    rw [hstep, foldl_bestGpuStep_eq]
    cases hlm : leftmostMinGpu
        (fun x => calculate_gpu_priority_score x (counts x.id)) t with
    | none =>
      rw [leftmostMinGpu_cons_nil _ g t hlm]
    | some r =>
      by_cases hgr : calculate_gpu_priority_score g (counts g.id)
          ≤ calculate_gpu_priority_score r (counts r.id)
      · rw [leftmostMinGpu_cons_le _ g t r hlm hgr]
        simp [not_lt.mpr hgr]
      · rw [leftmostMinGpu_cons_gt _ g t r hlm hgr]
        simp [lt_of_not_le hgr]

/-- C4 amended: on every non-empty candidate list the selection loop
returns a GPU of minimum total score, and on ties it returns the FIRST
tied candidate in stored (query) order: every candidate before the
returned one scores strictly higher.  The choice is a function of the
candidate list and the active-job counts, hence deterministic. -/
theorem placement_picks_first_minimum (gpus : List GPU)
    (counts : String → Nat) (h : gpus ≠ []) :
    ∃ r, findOptimalGpuFrom gpus counts = some r ∧ r ∈ gpus ∧
      (∀ x ∈ gpus, calculate_gpu_priority_score r (counts r.id)
        ≤ calculate_gpu_priority_score x (counts x.id)) ∧
      ∃ pre post, gpus = pre ++ r :: post ∧
        ∀ x ∈ pre, calculate_gpu_priority_score r (counts r.id)
          < calculate_gpu_priority_score x (counts x.id) := by
  cases gpus with
  | nil => exact absurd rfl h
  | cons g t =>
    rcases leftmostMinGpu_isSome
        (fun x => calculate_gpu_priority_score x (counts x.id)) g t with ⟨r, hr⟩
    rcases leftmostMinGpu_spec _ _ r hr with ⟨hmem, hmin, hfirst⟩
    exact ⟨r, by rw [findOptimalGpuFrom_eq_leftmostMin]; exact hr,
      hmem, hmin, hfirst⟩

/-- First-listed of the two tied GPUs (stored before `gTieA`, with the
lexicographically larger id). -/
def gTieB : GPU where
  id := "G-B"
  agent_id := 1
  name := "B"
  model := "M"
  status := "healthy"
  temperature := some 50
  utilization := some 0
  memory_total := some 1000
  memory_used := some 500
  vram := 0
  is_available := true
  pci_bus_id := ""

/-- Second-listed of the two tied GPUs, with the lexicographically smaller
id. -/
def gTieA : GPU where
  id := "G-A"
  agent_id := 1
  name := "A"
  model := "M"
  status := "healthy"
  temperature := some 50
  utilization := some 0
  memory_total := some 1000
  memory_used := some 500
  vram := 0
  is_available := true
  pci_bus_id := ""

/-- C4 counterexample: two GPUs with identical stats (both score 175) are
stored in the order `[G-B, G-A]`; the selection loop returns `G-B`, the
first in stored order, even though `G-A` is the tied candidate with the
lexicographically earliest id. -/
theorem placement_tiebreak_not_lexicographic :
    calculate_gpu_priority_score gTieB 0 = calculate_gpu_priority_score gTieA 0 ∧
    findOptimalGpuFrom [gTieB, gTieA] (fun _ => 0) = some gTieB ∧
    gTieB.id = "G-B" ∧ gTieA.id = "G-A" ∧ gTieA.id < gTieB.id := by
  have hB : calculate_gpu_priority_score gTieB 0 = 175 := by
    norm_num [calculate_gpu_priority_score, pyOrInt, pyTruthy, gTieB]
  have hA : calculate_gpu_priority_score gTieA 0 = 175 := by
    norm_num [calculate_gpu_priority_score, pyOrInt, pyTruthy, gTieA]
  refine ⟨hB.trans hA.symm, ?_, rfl, rfl, ?_⟩
  swap
  · show ("G-A" : String) < "G-B"
    rw [String.lt_iff_toList_lt]
    decide
  simp only [findOptimalGpuFrom, List.foldl_cons, List.foldl_nil, bestGpuStep]
  rw [hA, hB]
  simp

/-- C4 amended witness: on the tied pair the loop returns a minimum-score
element, namely the first stored one. -/
theorem placement_picks_first_minimum_witness :
    ([gTieB, gTieA] ≠ []) ∧
    (∃ r, findOptimalGpuFrom [gTieB, gTieA] (fun _ => 0) = some r ∧
      r ∈ [gTieB, gTieA] ∧
      (∀ x ∈ [gTieB, gTieA], calculate_gpu_priority_score r 0
        ≤ calculate_gpu_priority_score x 0) ∧
      ∃ pre post, [gTieB, gTieA] = pre ++ r :: post ∧
        ∀ x ∈ pre, calculate_gpu_priority_score r 0
          < calculate_gpu_priority_score x 0) :=
  ⟨by simp, placement_picks_first_minimum [gTieB, gTieA] (fun _ => 0) (by simp)⟩
